import Mathlib

/-!
# Verification of the carrier-integration core

Shallow embedding of the shipping-rate aggregation service:
* `infra/auth/ups-auth.ts` — OAuth token manager (`getUpsAccessToken`,
  `fetchUpsAccessToken`, `parseTokenResponse`) and the HTTP wrapper
  (`FetchClient.request`);
* `src/services/rate-service.ts` — aggregation engine (`RateService.getRates`,
  `RateService.getRatesFromProvider`);
* `infra/carriers/ups/ups-mapper.ts` — response normalization
  (`parseAmount`, `getRatedShipments`, `mapUpsRateResponseToQuote`).

JavaScript numbers (timestamps in milliseconds, monetary amounts, the
`expires_in` field) are modelled as rationals `ℚ`; network calls are modelled
as oracles passed explicitly; the module-global mutable cache slot `cached`
is modelled by explicit state passing (the slot before / after the call).
-/

set_option autoImplicit false
set_option maxRecDepth 4096

namespace CarrierIntegration

/-! ## Token manager: `infra/auth/ups-auth.ts` -/

/-- `const REFRESH_BUFFER_SEC = 300` — refresh the token when fewer than this
many seconds remain before expiry. -/
def REFRESH_BUFFER_SEC : ℚ := 300

/-- `interface UpsAuthConfig`. -/
structure UpsAuthConfig where
  clientId : String
  clientSecret : String
  baseUrl : String
  deriving DecidableEq, Repr

/-- `interface UpsTokenResponse` (the decoded token-endpoint payload).
`expires_in` is a JS number, modelled as `ℚ`. -/
structure UpsTokenResponse where
  access_token : String
  token_type : String
  expires_in : ℚ
  issued_at : String
  status : String
  deriving DecidableEq, Repr

/-- `interface CachedToken` — the shape of the module-global cache slot. -/
structure CachedToken where
  accessToken : String
  expiresAtMs : ℚ
  deriving DecidableEq, Repr

/-- The two throw sites of the auth layer, plus the raw exception `res.json()`
raises on a 2xx body that is not JSON.  The spec names the first two
`TokenAcquisitionError` and `MalformedTokenResponseError`; in the source both
are `Error` values distinguished by message and throw site. -/
inductive UpsAuthFailure where
  /-- `throw new Error('UPS OAuth token request failed: status statusText - text')`
  on a non-2xx token-endpoint response. -/
  | tokenAcq (status : Nat) (statusText : String) (body : String)
  /-- `throw new Error('Invalid UPS token response: missing access_token')`
  from `parseTokenResponse`. -/
  | malformedToken
  /-- the raw exception from `await res.json()` when the 2xx body is not JSON. -/
  | rawJson
  deriving DecidableEq, Repr

/-- A JSON value, as decoded by `res.json()`. -/
inductive JsonValue where
  | str (s : String)
  | num (q : ℚ)
  | jbool (b : Bool)
  | null
  | arr (xs : List JsonValue)
  | obj (fields : List (String × JsonValue))

/-- JS `String(v)` on a JSON value (object/array renderings abbreviated the
way JS does: `[object Object]`, elements joined by commas). -/
def jsToString : JsonValue → String
  | .str s => s
  | .num q => toString q
  | .jbool b => if b then "true" else "false"
  | .null => "null"
  | .arr _ => ""
  | .obj _ => "[object Object]"

/-- JS `Number(v)` on a JSON value; `none` models `NaN`. -/
def jsToNumber : JsonValue → Option ℚ
  | .num q => some q
  | .jbool b => some (if b then 1 else 0)
  | .null => some 0
  | _ => none

/-- `parseTokenResponse(body)`: accepts any object carrying an
`access_token` field; coerces the other fields with defaults
(`token_type` defaults to `"Bearer"`, `expires_in` to `0` via
`Number(o.expires_in) || 0`); otherwise throws
`Invalid UPS token response: missing access_token`. -/
def parseTokenResponse (body : JsonValue) : Except UpsAuthFailure UpsTokenResponse :=
  match body with
  | .obj fields =>
    match fields.lookup "access_token" with
    | some v =>
      .ok { access_token := jsToString v
            token_type := match fields.lookup "token_type" with
              | some (.str s) => s
              | _ => "Bearer"
            expires_in := match (fields.lookup "expires_in").bind jsToNumber with
              | some q => if q = 0 then 0 else q
              | none => 0
            issued_at := match fields.lookup "issued_at" with
              | some (.str s) => s
              | _ => ""
            status := match fields.lookup "status" with
              | some (.str s) => s
              | _ => "" }
    | none => .error .malformedToken
  | _ => .error .malformedToken

/-- The observable part of the token endpoint's HTTP response: `ok`
(`res.ok`), status, status text, the raw text body (read on failure), and the
decoded JSON body (`none` when the 2xx body fails to decode). -/
structure TokenEndpointResponse where
  ok : Bool
  status : Nat
  statusText : String
  text : String
  json : Option JsonValue

/-- `fetchUpsAccessToken(config)`, given the HTTP exchange's response:
non-2xx throws the acquisition error carrying status, status text and raw
body; a 2xx body is decoded as JSON and fed to `parseTokenResponse`. -/
def fetchUpsAccessToken (res : TokenEndpointResponse) :
    Except UpsAuthFailure UpsTokenResponse :=
  if !res.ok then
    .error (.tokenAcq res.status res.statusText res.text)
  else
    match res.json with
    | none => .error .rawJson
    | some body => parseTokenResponse body

instance exceptDecEq {ε α : Type} [DecidableEq ε] [DecidableEq α] :
    DecidableEq (Except ε α) := fun x y =>
  match x, y with
  | .ok a, .ok b =>
    if h : a = b then .isTrue (by rw [h]) else .isFalse (fun hx => h (by cases hx; rfl))
  | .error a, .error b =>
    if h : a = b then .isTrue (by rw [h]) else .isFalse (fun hx => h (by cases hx; rfl))
  | .ok _, .error _ => .isFalse (fun hx => Except.noConfusion hx)
  | .error _, .ok _ => .isFalse (fun hx => Except.noConfusion hx)

/-- Result of one `getUpsAccessToken` call: the value returned (or the error
thrown), the cache slot after the call, and how many times the acquisition
path (`fetchUpsAccessToken`) ran. -/
structure GetTokenOutcome where
  result : Except UpsAuthFailure String
  cached : Option CachedToken
  acquisitions : Nat
  deriving DecidableEq, Repr

/-- The acquisition branch of `getUpsAccessToken`: run `fetchUpsAccessToken`,
and on success replace the cache slot wholesale with
`{accessToken, expiresAtMs = nowMs + expires_in * 1000}`; on failure the
exception propagates and the cache slot keeps its previous value. -/
def acquireAndStore (nowMs : ℚ) (acq : Except UpsAuthFailure UpsTokenResponse)
    (old : Option CachedToken) : GetTokenOutcome :=
  match acq with
  | .error e => { result := .error e, cached := old, acquisitions := 1 }
  | .ok tokenResponse =>
    let expiresAtMs := nowMs + tokenResponse.expires_in * 1000
    { result := .ok tokenResponse.access_token
      cached := some { accessToken := tokenResponse.access_token, expiresAtMs := expiresAtMs }
      acquisitions := 1 }

/-- `getUpsAccessToken(config)`.  `nowMs` is `Date.now()`; `fetchOracle`
models the network: the token-endpoint outcome this invocation would observe,
as a function of the config (URL and Basic credentials are built from it);
`cached` is the module-global slot before the call.
Source guard: `if (cached && cached.expiresAtMs > nowMs + 300*1000) return cached.accessToken`. -/
def getUpsAccessToken (nowMs : ℚ)
    (fetchOracle : UpsAuthConfig → Except UpsAuthFailure UpsTokenResponse)
    (config : UpsAuthConfig) (cached : Option CachedToken) : GetTokenOutcome :=
  let refreshAtMs := nowMs + REFRESH_BUFFER_SEC * 1000
  match cached with
  | some c =>
    if refreshAtMs < c.expiresAtMs then
      { result := .ok c.accessToken, cached := some c, acquisitions := 0 }
    else
      acquireAndStore nowMs (fetchOracle config) (some c)
  | none => acquireAndStore nowMs (fetchOracle config) none

/-- `clearUpsTokenCache()`. -/
def clearUpsTokenCache : Option CachedToken := none

/-! ## Transport gateway: `FetchClient.request` (`infra/http/fetch-client.ts`) -/

/-- `class FetchError extends Error` — status, status text and raw body. -/
structure FetchError where
  message : String
  status : Nat
  statusText : String
  body : String
  deriving DecidableEq, Repr

/-- The observable part of an HTTP response as `FetchClient.request` reads it:
`res.ok`, `res.status`, `res.statusText`, and `await res.text()`. -/
structure HttpResponse where
  ok : Bool
  status : Nat
  statusText : String
  text : String
  deriving DecidableEq, Repr

/-- The response-handling tail of `FetchClient.request` (everything after
`await fetch`).  `parseJson` models `JSON.parse` (`none` ~ a thrown
`SyntaxError`).  `Except.ok none` models the `return undefined` taken on an
empty 2xx body ("no content"). -/
def FetchClient.request {J : Type} (parseJson : String → Option J)
    (res : HttpResponse) : Except FetchError (Option J) :=
  if !res.ok then
    .error { message := "Request failed: " ++ toString res.status ++ " " ++ res.statusText
             status := res.status, statusText := res.statusText, body := res.text }
  else if res.text = "" then
    .ok none
  else
    match parseJson res.text with
    | some v => .ok (some v)
    | none =>
      .error { message := "Invalid JSON response"
               status := res.status, statusText := res.statusText, body := res.text }

/-! ## Rate quotes: `src/models/rate-quote.ts` -/

/-- The optional `breakdown` object of a `RateQuote`. -/
structure RateBreakdown where
  basePrice : ℚ
  fuelSurcharge : Option ℚ
  other : Option ℚ
  deriving DecidableEq, Repr

/-- `interface RateQuote` (the carrier-agnostic normalized quote). -/
structure RateQuote where
  serviceCode : String
  serviceName : String
  totalPrice : ℚ
  currency : String
  breakdown : Option RateBreakdown := none
  deriving DecidableEq, Repr

/-! ## Aggregation engine: `src/services/rate-service.ts` -/

/-- A JS `Error` value as the aggregation layer sees it (opaque reason). -/
structure JsError where
  message : String
  deriving DecidableEq, Repr

/-- One element of `RateServiceResult.quotes`. -/
structure CarrierQuote where
  carrier : String
  quote : RateQuote
  deriving DecidableEq, Repr

/-- One element of `RateServiceResult.errors`. -/
structure CarrierError where
  carrier : String
  error : JsError
  deriving DecidableEq, Repr

/-- `interface RateServiceResult` (`errors` is absent — `none` — unless some
adapter failed), extended with the number of adapter invocations the call
launched, so that "never invokes anything" is provable. -/
structure RateServiceResult where
  quotes : List CarrierQuote
  errors : Option (List CarrierError)
  invocations : Nat
  deriving DecidableEq, Repr

/-- The registered providers: `Object.entries(this.config.providers)` in
insertion order, each paired with the settled outcome its `getRates(request)`
promise would produce for the request at hand (`.ok` ~ fulfilled,
`.error` ~ rejected). -/
abbrev ProviderEntries : Type := List (String × Except JsError RateQuote)

/-- `true` exactly on the fulfilled entries. -/
def settledOk (r : Except JsError RateQuote) : Bool :=
  match r with
  | .ok _ => true
  | .error _ => false

/-- The in-order pass of `getRates` pushing each fulfilled outcome into the
`quotes` array. -/
def quotesOf (providers : ProviderEntries) : List CarrierQuote :=
  providers.filterMap fun p =>
    match p.2 with
    | .ok q => some { carrier := p.1, quote := q }
    | .error _ => none

/-- The in-order pass of `getRates` pushing each rejected outcome into the
`errors` array. -/
def errorsOf (providers : ProviderEntries) : List CarrierError :=
  providers.filterMap fun p =>
    match p.2 with
    | .ok _ => none
    | .error e => some { carrier := p.1, error := e }

/-- `RateService.getRates(request)`: zero providers short-circuits to
`{ quotes: [] }` with nothing invoked; otherwise one invocation per provider
is launched, `Promise.allSettled` collects every outcome, and a single
in-order pass pushes fulfilled outcomes into `quotes` and rejected ones into
`errors`; `errors` is attached only when non-empty. -/
def RateService.getRates (providers : ProviderEntries) : RateServiceResult :=
  match providers with
  | [] => { quotes := [], errors := none, invocations := 0 }
  | _ =>
    if 0 < (errorsOf providers).length then
      { quotes := quotesOf providers, errors := some (errorsOf providers)
        invocations := providers.length }
    else
      { quotes := quotesOf providers, errors := none
        invocations := providers.length }

/-- `RateService.getRatesFromProvider(providerName, request)`: look the name
up in the provider record; unknown names throw
`Unknown rate provider: ...` before any adapter runs; otherwise the one
provider is invoked and its outcome is returned/propagated unchanged.
The second component counts adapter invocations. -/
def RateService.getRatesFromProvider (providers : ProviderEntries)
    (providerName : String) : Except JsError RateQuote × Nat :=
  match providers.lookup providerName with
  | none => (.error { message := "Unknown rate provider: " ++ providerName }, 0)
  | some outcome => (outcome, 1)

/-! ## UPS response normalization: `infra/carriers/ups/ups-mapper.ts`

Types from `infra/carriers/ups/ups-rate-response.ts`; optional (`?:`) fields
become `Option`. -/

/-- Digits accumulated into a natural number (base 10). -/
def digitsToNat (ds : List Char) : Nat :=
  ds.foldl (fun a c => a * 10 + (c.toNat - 48)) 0

/-- The character-level phase of `Number.parseFloat`: skip leading
whitespace, read an optional sign, then the longest prefix of digits with an
optional fractional part (as in JS, trailing junk is ignored).  Returns
`(negative, integer digits value, fraction digits value, fraction length)`,
or `none` when no digits were read at all (`NaN`). -/
def jsParseFloatParts (s : String) : Option (Bool × Nat × Nat × Nat) :=
  let cs := s.data.dropWhile fun c => c == ' ' || c == '\t' || c == '\n' || c == '\r'
  let signAndRest : Bool × List Char :=
    match cs with
    | '-' :: rest => (true, rest)
    | '+' :: rest => (false, rest)
    | _ => (false, cs)
  let intPart := signAndRest.2.takeWhile Char.isDigit
  let afterInt := signAndRest.2.dropWhile Char.isDigit
  let fracPart :=
    match afterInt with
    | '.' :: rest => rest.takeWhile Char.isDigit
    | _ => []
  if intPart.isEmpty && fracPart.isEmpty then none
  else some (signAndRest.1, digitsToNat intPart, digitsToNat fracPart, fracPart.length)

/-- `Number.parseFloat` on the decimal fragment the carrier uses; the parsed
digits are assembled into a rational.  `none` models a non-finite result
(`NaN`), e.g. on input with no leading digits. -/
def jsParseFloat (s : String) : Option ℚ :=
  (jsParseFloatParts s).map fun p =>
    (if p.1 then -1 else 1) * ((p.2.1 : ℚ) + (p.2.2.1 : ℚ) / (10 ^ p.2.2.2))

/-- Does `hay` start with `needle`? -/
def listStartsWith : List Char → List Char → Bool
  | [], _ => true
  | _ :: _, [] => false
  | a :: as, b :: bs => a == b && listStartsWith as bs

/-- Does `hay` contain `needle` as a contiguous run?  Models
`String.prototype.includes`. -/
def listContainsSub (needle : List Char) : List Char → Bool
  | [] => needle.isEmpty
  | c :: rest => listStartsWith needle (c :: rest) || listContainsSub needle rest

/-- `hay.includes(pat)` on strings. -/
def strIncludes (hay pat : String) : Bool :=
  listContainsSub pat.data hay.data

/-- `interface UpsCharges`. -/
structure UpsCharges where
  CurrencyCode : Option String := none
  MonetaryValue : Option String := none
  deriving DecidableEq, Repr

/-- One element of `NegotiatedRateCharges.ItemizedCharges`. -/
structure UpsItemizedCharge where
  Code : Option String := none
  Description : Option String := none
  MonetaryValue : Option String := none
  deriving DecidableEq, Repr

/-- The `NegotiatedRateCharges` object of a rated shipment. -/
structure UpsNegotiatedRateCharges where
  ItemizedCharges : Option (List UpsItemizedCharge) := none
  TotalCharge : Option UpsCharges := none
  deriving DecidableEq, Repr

/-- `interface UpsService` (response side: both fields optional). -/
structure UpsService where
  Code : Option String := none
  Description : Option String := none
  deriving DecidableEq, Repr

/-- The `BillingWeight` object of a rated shipment (unused by the mapper). -/
structure UpsBillingWeight where
  Weight : Option String := none
  UnitOfMeasurementCode : Option String := none
  deriving DecidableEq, Repr

/-- `interface UpsRatedShipment`. -/
structure UpsRatedShipment where
  Service : Option UpsService := none
  TotalCharges : Option UpsCharges := none
  NegotiatedRateCharges : Option UpsNegotiatedRateCharges := none
  BillingWeight : Option UpsBillingWeight := none
  deriving DecidableEq, Repr

/-- `RatedShipment?: UpsRatedShipment | UpsRatedShipment[]` — a single
object or an array. -/
inductive UpsRatedShipmentField where
  | single (s : UpsRatedShipment)
  | array (ss : List UpsRatedShipment)
  deriving DecidableEq, Repr

/-- The `ResponseStatus` object (unused by the mapper). -/
structure UpsResponseStatus where
  Code : Option String := none
  Description : Option String := none
  deriving DecidableEq, Repr

/-- The object under the `RateResponse` key. -/
structure UpsRateResponseInner where
  Response : Option UpsResponseStatus := none
  RatedShipment : Option UpsRatedShipmentField := none
  deriving DecidableEq, Repr

/-- `interface UpsRateResponse`. -/
structure UpsRateResponse where
  RateResponse : Option UpsRateResponseInner := none
  deriving DecidableEq, Repr

/-- `parseAmount(charges)`: `0` when the charges object or its
`MonetaryValue` is missing or empty (the `!charges?.MonetaryValue` falsy
guard), `0` when `Number.parseFloat` yields a non-finite value, the parsed
amount otherwise. -/
def parseAmount (charges : Option UpsCharges) : ℚ :=
  match charges with
  | none => 0
  | some c =>
    match c.MonetaryValue with
    | none => 0
    | some mv =>
      if mv = "" then 0
      else
        match jsParseFloat mv with
        | some n => n
        | none => 0

/-- `getRatedShipments(res)`: the rated shipments as a list — `[]` when the
field is missing, a singleton when the carrier sent one object, the array
itself otherwise. -/
def getRatedShipments (res : UpsRateResponse) : List UpsRatedShipment :=
  match res.RateResponse with
  | none => []
  | some rr =>
    match rr.RatedShipment with
    | none => []
    | some (.single s) => [s]
    | some (.array ss) => ss

/-- The predicate of `itemized.find(...)`: code `"FS"`, or a description
whose lowercase form contains `"fuel"`. -/
def isFuelCharge (c : UpsItemizedCharge) : Bool :=
  c.Code == some "FS" ||
    (match c.Description with
     | some d => strIncludes d.toLower "fuel"
     | none => false)

/-- The sentinel quote returned when no rated shipment is present. -/
def upsSentinelQuote : RateQuote :=
  { serviceCode := "ups", serviceName := "UPS", totalPrice := 0, currency := "USD" }

/-- `mapUpsRateResponseToQuote(res)`: take the FIRST rated shipment (or the
sentinel when there is none); `totalPrice`/`currency` come from the
negotiated total when present, else the standard total; the breakdown is
built whenever itemized charges or a standard total exist, with the standard
total as `basePrice`, the fuel line item (if found) as `fuelSurcharge`, and
the negotiated total (if present) as `other`. -/
def mapUpsRateResponseToQuote (res : UpsRateResponse) : RateQuote :=
  match getRatedShipments res with
  | [] => upsSentinelQuote
  | first :: _ =>
    let negotiatedTotal := first.NegotiatedRateCharges.bind fun n => n.TotalCharge
    let totalCharges :=
      match negotiatedTotal with
      | some t => some t
      | none => first.TotalCharges
    let totalPrice := parseAmount totalCharges
    let currency := ((totalCharges.bind fun t => t.CurrencyCode)).getD "USD"
    let itemized := (first.NegotiatedRateCharges.bind fun n => n.ItemizedCharges).getD []
    let fuelItem := itemized.find? isFuelCharge
    let breakdown :=
      if 0 < itemized.length || first.TotalCharges.isSome then
        some { basePrice := parseAmount first.TotalCharges
               fuelSurcharge := fuelItem.map fun fi =>
                 parseAmount (some { MonetaryValue := fi.MonetaryValue })
               other := negotiatedTotal.map fun t => parseAmount (some t) }
      else none
    { serviceCode := ((first.Service.bind fun s => s.Code)).getD "ups"
      serviceName := ((first.Service.bind fun s => s.Description)).getD "UPS"
      totalPrice := totalPrice
      currency := currency
      breakdown := breakdown }

/-! ## Concrete fixtures (used by witnesses and counterexamples) -/

/-- A token-endpoint payload with the documented 4-hour lifetime. -/
def tokenRespEx : UpsTokenResponse :=
  { access_token := "new-token", token_type := "Bearer", expires_in := 14400
    issued_at := "", status := "" }

/-- A network oracle whose token endpoint always succeeds with `tokenRespEx`. -/
def fetchOracleEx : UpsAuthConfig → Except UpsAuthFailure UpsTokenResponse :=
  fun _ => .ok tokenRespEx

/-- A second oracle, succeeding with a token that lives only 100 seconds. -/
def fetchOracleShort : UpsAuthConfig → Except UpsAuthFailure UpsTokenResponse :=
  fun _ => .ok { access_token := "short-token", token_type := "Bearer", expires_in := 100
                 issued_at := "", status := "" }

/-- A sandbox auth config. -/
def authCfgEx : UpsAuthConfig :=
  { clientId := "id", clientSecret := "secret", baseUrl := "https://wwwcie.ups.com" }

/-- A second, entirely different auth config. -/
def authCfgEx2 : UpsAuthConfig :=
  { clientId := "other-id", clientSecret := "other-secret", baseUrl := "https://onlinetools.ups.com" }

/-- Fuel line item: code `FS`, description `Fuel Surcharge`, 1.09. -/
def upsFuelItemEx : UpsItemizedCharge :=
  { Code := some "FS", Description := some "Fuel Surcharge", MonetaryValue := some "1.09" }

/-- The negotiated total: 10.88 USD. -/
def upsNegTotalEx : UpsCharges :=
  { CurrencyCode := some "USD", MonetaryValue := some "10.88" }

/-- The standard (published) total: 11.63 USD. -/
def upsStdTotalEx : UpsCharges :=
  { CurrencyCode := some "USD", MonetaryValue := some "11.63" }

/-- Negotiated-rate charges: total 10.88 with the fuel line item. -/
def upsNegotiatedEx : UpsNegotiatedRateCharges :=
  { TotalCharge := some upsNegTotalEx, ItemizedCharges := some [upsFuelItemEx] }

/-- First rated shipment: standard 11.63, negotiated 10.88, fuel 1.09. -/
def upsRatedShipmentEx : UpsRatedShipment :=
  { Service := some { Code := some "03", Description := some "Ground" }
    TotalCharges := some upsStdTotalEx
    NegotiatedRateCharges := some upsNegotiatedEx }

/-- Second rated shipment, listed after the first with a lower 9.99 total. -/
def upsRatedShipmentEx2 : UpsRatedShipment :=
  { Service := some { Code := some "01", Description := some "Next Day" }
    TotalCharges := some { CurrencyCode := some "USD", MonetaryValue := some "9.99" } }

/-- A rate response carrying a negotiated total of 10.88, a standard total of
11.63, a fuel line item of 1.09, and a second (cheaper-looking `9.99`) rated
service after the first. -/
def upsRateResponseEx : UpsRateResponse :=
  { RateResponse := some
      { RatedShipment := some (.array [upsRatedShipmentEx, upsRatedShipmentEx2]) } }

/-- A quote fixture for the aggregation witnesses. -/
def quoteEx : RateQuote :=
  { serviceCode := "03", serviceName := "Ground", totalPrice := 10, currency := "USD" }

/-- A two-provider registry: the first succeeds, the second fails. -/
def providersEx : ProviderEntries :=
  [("ups", .ok quoteEx), ("fedex", .error { message := "boom" })]

/-- A toy `JSON.parse` model for the transport witnesses: accepts just the
document `"1"`. -/
def parseJsonEx : String → Option Nat :=
  fun s => if s = "1" then some 1 else none

/-- Token endpoint: a 401 failure. -/
def tokenRes401 : TokenEndpointResponse :=
  { ok := false, status := 401, statusText := "Unauthorized", text := "denied", json := none }

/-- Token endpoint: a 2xx response whose JSON object has no `access_token`. -/
def tokenResNoTok : TokenEndpointResponse :=
  { ok := true, status := 200, statusText := "OK", text := "{}", json := some (.obj []) }

/-- The JSON object fields of a healthy token payload. -/
def tokenFieldsGood : List (String × JsonValue) :=
  [("access_token", .str "tok123"), ("token_type", .str "Bearer"), ("expires_in", .num 14400)]

/-- Token endpoint: a healthy 2xx response. -/
def tokenResGood : TokenEndpointResponse :=
  { ok := true, status := 200, statusText := "OK", text := "body"
    json := some (.obj tokenFieldsGood) }

/-! ## Theorems: token manager -/

/-- **C1.** `getUpsAccessToken`: if a cached credential exists whose expiry is
strictly more than `REFRESH_BUFFER_SEC` (= 300) seconds after now, the cached
token is returned and the acquisition path never runs; otherwise (cache empty
or remaining lifetime ≤ 300 s, expired included) exactly one acquisition
occurs, the cache slot is replaced wholesale with
`{accessToken, expiresAt = now + expiresInSeconds}`, and the fresh token is
returned. -/
theorem getUpsAccessToken_cache_policy (nowMs : ℚ)
    (fetchOracle : UpsAuthConfig → Except UpsAuthFailure UpsTokenResponse)
    (config : UpsAuthConfig) (cached : Option CachedToken) :
    (∀ c, cached = some c → nowMs + REFRESH_BUFFER_SEC * 1000 < c.expiresAtMs →
      getUpsAccessToken nowMs fetchOracle config cached =
        { result := .ok c.accessToken, cached := some c, acquisitions := 0 }) ∧
    ((cached = none ∨
        ∃ c, cached = some c ∧ c.expiresAtMs ≤ nowMs + REFRESH_BUFFER_SEC * 1000) →
      ∀ resp, fetchOracle config = .ok resp →
        getUpsAccessToken nowMs fetchOracle config cached =
          { result := .ok resp.access_token
            cached := some { accessToken := resp.access_token
                             expiresAtMs := nowMs + resp.expires_in * 1000 }
            acquisitions := 1 }) := by
  constructor
  · intro c hc hlt
    subst hc
    simp [getUpsAccessToken, hlt]
  · intro hmiss resp hresp
    rcases hmiss with h | ⟨c, hc, hle⟩
    · subst h
      simp [getUpsAccessToken, acquireAndStore, hresp]
    · subst hc
      simp [getUpsAccessToken, acquireAndStore, hresp, not_lt.mpr hle]

/-- Witness for C1: with a still-fresh cached token the cache is served with
no acquisition; with an empty cache one acquisition happens and the slot is
replaced. -/
theorem getUpsAccessToken_cache_policy_witness :
    getUpsAccessToken 1000 fetchOracleEx authCfgEx
        (some { accessToken := "cached-token", expiresAtMs := 10000000 }) =
      { result := .ok "cached-token"
        cached := some { accessToken := "cached-token", expiresAtMs := 10000000 }
        acquisitions := 0 } ∧
    getUpsAccessToken 1000 fetchOracleEx authCfgEx none =
      { result := .ok "new-token"
        cached := some { accessToken := "new-token", expiresAtMs := 1000 + 14400 * 1000 }
        acquisitions := 1 } := by
  constructor
  · exact (getUpsAccessToken_cache_policy 1000 fetchOracleEx authCfgEx
      (some { accessToken := "cached-token", expiresAtMs := 10000000 })).1
      { accessToken := "cached-token", expiresAtMs := 10000000 } rfl
      (by norm_num [REFRESH_BUFFER_SEC])
  · exact (getUpsAccessToken_cache_policy 1000 fetchOracleEx authCfgEx none).2
      (Or.inl rfl) tokenRespEx rfl

/-- **C3, counterexample.** The claim "the token manager never returns a
credential whose remaining lifetime at the moment of return is below the
300-second margin" fails on the code: an acquisition whose `expires_in` is
100 seconds is cached and returned as is, with a remaining lifetime of
100 s < 300 s. -/
theorem getUpsAccessToken_margin_counterexample :
    (getUpsAccessToken 0 fetchOracleShort authCfgEx none).result = .ok "short-token" ∧
    (getUpsAccessToken 0 fetchOracleShort authCfgEx none).cached =
      some { accessToken := "short-token", expiresAtMs := 100 * 1000 } ∧
    (100 * 1000 : ℚ) - 0 < REFRESH_BUFFER_SEC * 1000 := by
  refine ⟨?_, ?_, by norm_num [REFRESH_BUFFER_SEC]⟩
  · simp [getUpsAccessToken, acquireAndStore, fetchOracleShort]
  · simp [getUpsAccessToken, acquireAndStore, fetchOracleShort]

/-- **C3, amended.** Every token the manager returns comes from the cache
slot, and its remaining lifetime is strictly above the 300-second margin
when it was served from the cache; a token returned right after a fresh
acquisition instead has remaining lifetime exactly `expires_in` seconds,
which may be at or below the margin. -/
theorem getUpsAccessToken_margin_amended (nowMs : ℚ)
    (fetchOracle : UpsAuthConfig → Except UpsAuthFailure UpsTokenResponse)
    (config : UpsAuthConfig) (cached : Option CachedToken) :
    ∀ t, (getUpsAccessToken nowMs fetchOracle config cached).result = .ok t →
      ∃ c, (getUpsAccessToken nowMs fetchOracle config cached).cached = some c ∧
        c.accessToken = t ∧
        (REFRESH_BUFFER_SEC * 1000 < c.expiresAtMs - nowMs ∨
         ∃ resp, fetchOracle config = .ok resp ∧
           c.expiresAtMs - nowMs = resp.expires_in * 1000) := by
  intro t
  cases cached with
  | none =>
    cases hr : fetchOracle config with
    | error e =>
      intro ht
      have hout : getUpsAccessToken nowMs fetchOracle config none =
          { result := .error e, cached := none, acquisitions := 1 } := by
        simp [getUpsAccessToken, acquireAndStore, hr]
      rw [hout] at ht
      exact absurd ht (by simp)
    | ok resp =>
      intro ht
      have hout : getUpsAccessToken nowMs fetchOracle config none =
          { result := .ok resp.access_token
            cached := some { accessToken := resp.access_token
                             expiresAtMs := nowMs + resp.expires_in * 1000 }
            acquisitions := 1 } := by
        simp [getUpsAccessToken, acquireAndStore, hr]
      rw [hout] at ht ⊢
      simp only [Except.ok.injEq] at ht
      exact ⟨_, rfl, ht, Or.inr ⟨resp, rfl, by ring⟩⟩
  | some c =>
    by_cases hlt : nowMs + REFRESH_BUFFER_SEC * 1000 < c.expiresAtMs
    · intro ht
      have hout : getUpsAccessToken nowMs fetchOracle config (some c) =
          { result := .ok c.accessToken, cached := some c, acquisitions := 0 } := by
        simp [getUpsAccessToken, hlt]
      rw [hout] at ht ⊢
      simp only [Except.ok.injEq] at ht
      exact ⟨c, rfl, ht, Or.inl (by linarith)⟩
    · cases hr : fetchOracle config with
      | error e =>
        intro ht
        have hout : getUpsAccessToken nowMs fetchOracle config (some c) =
            { result := .error e, cached := some c, acquisitions := 1 } := by
          simp [getUpsAccessToken, acquireAndStore, hlt, hr]
        rw [hout] at ht
        exact absurd ht (by simp)
      | ok resp =>
        intro ht
        have hout : getUpsAccessToken nowMs fetchOracle config (some c) =
            { result := .ok resp.access_token
              cached := some { accessToken := resp.access_token
                               expiresAtMs := nowMs + resp.expires_in * 1000 }
              acquisitions := 1 } := by
          simp [getUpsAccessToken, acquireAndStore, hlt, hr]
        rw [hout] at ht ⊢
        simp only [Except.ok.injEq] at ht
        exact ⟨_, rfl, ht, Or.inr ⟨resp, rfl, by ring⟩⟩

/-- Witness for the amended C3 at a concrete fresh acquisition. -/
theorem getUpsAccessToken_margin_amended_witness :
    ∃ c, (getUpsAccessToken 0 fetchOracleShort authCfgEx none).cached = some c ∧
      c.accessToken = "short-token" ∧
      (REFRESH_BUFFER_SEC * 1000 < c.expiresAtMs - 0 ∨
       ∃ resp, fetchOracleShort authCfgEx = .ok resp ∧
         c.expiresAtMs - 0 = resp.expires_in * 1000) := by
  exact getUpsAccessToken_margin_amended 0 fetchOracleShort authCfgEx none
    "short-token" (by simp [getUpsAccessToken, acquireAndStore, fetchOracleShort])

/-- **C10.** The cache slot is process-global and keyed by nothing: once a
call with config `c1` has cached a token that is still more than 300 s from
expiry at the second call's time, a call with ANY config (`c2` with different
clientId/clientSecret/baseUrl included) returns that same token string with
no acquisition. -/
theorem getUpsAccessToken_config_blind (nowA nowB : ℚ)
    (fetchOracle : UpsAuthConfig → Except UpsAuthFailure UpsTokenResponse)
    (c1 : UpsAuthConfig) (resp : UpsTokenResponse)
    (h1 : fetchOracle c1 = .ok resp)
    (h2 : nowB + REFRESH_BUFFER_SEC * 1000 < nowA + resp.expires_in * 1000) :
    (getUpsAccessToken nowA fetchOracle c1 none).result = .ok resp.access_token ∧
    ∀ c2 : UpsAuthConfig,
      getUpsAccessToken nowB fetchOracle c2 ((getUpsAccessToken nowA fetchOracle c1 none).cached) =
        { result := .ok resp.access_token
          cached := (getUpsAccessToken nowA fetchOracle c1 none).cached
          acquisitions := 0 } := by
  have hfirst : getUpsAccessToken nowA fetchOracle c1 none =
      { result := .ok resp.access_token
        cached := some { accessToken := resp.access_token
                         expiresAtMs := nowA + resp.expires_in * 1000 }
        acquisitions := 1 } := by
    simp [getUpsAccessToken, acquireAndStore, h1]
  refine ⟨by simp [hfirst], fun c2 => ?_⟩
  rw [hfirst]
  simp [getUpsAccessToken, h2]

/-- Witness for C10: a token cached under one sandbox config is served,
acquisition-free, to a call using a completely different config. -/
theorem getUpsAccessToken_config_blind_witness :
    (getUpsAccessToken 0 fetchOracleEx authCfgEx none).result = .ok "new-token" ∧
    ∀ c2 : UpsAuthConfig,
      getUpsAccessToken 60000 fetchOracleEx c2 ((getUpsAccessToken 0 fetchOracleEx authCfgEx none).cached) =
        { result := .ok "new-token"
          cached := (getUpsAccessToken 0 fetchOracleEx authCfgEx none).cached
          acquisitions := 0 } := by
  exact getUpsAccessToken_config_blind 0 60000 fetchOracleEx authCfgEx tokenRespEx rfl
    (by norm_num [REFRESH_BUFFER_SEC, tokenRespEx])

/-! ## Theorems: aggregation engine -/

/-- Unfolding `quotesOf` over a fulfilled head entry. -/
theorem quotesOf_cons_ok (n : String) (q : RateQuote) (l : ProviderEntries) :
    quotesOf ((n, .ok q) :: l) = { carrier := n, quote := q } :: quotesOf l := rfl

/-- Unfolding `quotesOf` over a rejected head entry. -/
theorem quotesOf_cons_error (n : String) (e : JsError) (l : ProviderEntries) :
    quotesOf ((n, .error e) :: l) = quotesOf l := rfl

/-- Unfolding `errorsOf` over a fulfilled head entry. -/
theorem errorsOf_cons_ok (n : String) (q : RateQuote) (l : ProviderEntries) :
    errorsOf ((n, .ok q) :: l) = errorsOf l := rfl

/-- Unfolding `errorsOf` over a rejected head entry. -/
theorem errorsOf_cons_error (n : String) (e : JsError) (l : ProviderEntries) :
    errorsOf ((n, .error e) :: l) = { carrier := n, error := e } :: errorsOf l := rfl

/-- Every registered adapter lands in exactly one of the two output lists. -/
theorem quotesOf_errorsOf_length (l : ProviderEntries) :
    (quotesOf l).length + (errorsOf l).length = l.length := by
  induction l with
  | nil => rfl
  | cons p l ih =>
    obtain ⟨n, r⟩ := p
    cases r with
    | ok q => simpa [quotesOf_cons_ok, errorsOf_cons_ok] using by omega
    | error e => simpa [quotesOf_cons_error, errorsOf_cons_error] using by omega

/-- The errors list is exactly the failing entries, in registration order. -/
theorem errorsOf_length (l : ProviderEntries) :
    (errorsOf l).length = (l.filter fun p => !settledOk p.2).length := by
  induction l with
  | nil => rfl
  | cons p l ih =>
    obtain ⟨n, r⟩ := p
    cases r with
    | ok q => simpa [errorsOf_cons_ok, settledOk, List.filter] using ih
    | error e => simpa [errorsOf_cons_error, settledOk, List.filter] using ih

/-- The quotes list names exactly the succeeding adapters, in registration
order. -/
theorem quotesOf_carriers (l : ProviderEntries) :
    (quotesOf l).map (fun cq => cq.carrier) = (l.filter fun p => settledOk p.2).map Prod.fst := by
  induction l with
  | nil => rfl
  | cons p l ih =>
    obtain ⟨n, r⟩ := p
    cases r with
    | ok q => simpa [quotesOf_cons_ok, settledOk, List.filter] using ih
    | error e => simpa [quotesOf_cons_error, settledOk, List.filter] using ih

/-- The errors list names exactly the failing adapters, in registration
order. -/
theorem errorsOf_carriers (l : ProviderEntries) :
    (errorsOf l).map (fun ce => ce.carrier) = (l.filter fun p => !settledOk p.2).map Prod.fst := by
  induction l with
  | nil => rfl
  | cons p l ih =>
    obtain ⟨n, r⟩ := p
    cases r with
    | ok q => simpa [errorsOf_cons_ok, settledOk, List.filter] using ih
    | error e => simpa [errorsOf_cons_error, settledOk, List.filter] using ih

/-- A succeeding adapter's quote is always collected, whatever its siblings
do. -/
theorem quotesOf_mem (l : ProviderEntries) (p : String × Except JsError RateQuote)
    (q : RateQuote) (hp : p ∈ l) (hq : p.2 = .ok q) :
    ({ carrier := p.1, quote := q } : CarrierQuote) ∈ quotesOf l := by
  unfold quotesOf
  exact List.mem_filterMap.mpr ⟨p, hp, by rw [hq]⟩

/-- `getRates` on a non-empty registry, in terms of the two passes. -/
theorem getRates_eq_of_ne_nil (providers : ProviderEntries) (h : providers ≠ []) :
    RateService.getRates providers =
      if 0 < (errorsOf providers).length then
        { quotes := quotesOf providers, errors := some (errorsOf providers)
          invocations := providers.length }
      else
        { quotes := quotesOf providers, errors := none
          invocations := providers.length } := by
  cases providers with
  | nil => exact absurd rfl h
  | cons p l => rfl

/-- **C2.** `getRates` with `k` registered adapters of which `m` fail returns
exactly `k − m` quotes; the `errors` field is absent when `m = 0` and holds
exactly `m` entries when `m > 0`; quotes and errors both follow adapter
registration order (the succeeding/failing adapters' names in registry
order), never completion order; every succeeding adapter's quote is
collected regardless of sibling failures; exactly one invocation is launched
per adapter; and an empty registry yields an empty quote list, no error
list, and no invocation at all. -/
theorem rateService_getRates_partition (providers : ProviderEntries) :
    ((RateService.getRates providers).quotes.length
        = providers.length - (providers.filter fun p => !settledOk p.2).length) ∧
    ((providers.filter fun p => !settledOk p.2).length = 0 →
        (RateService.getRates providers).errors = none) ∧
    (0 < (providers.filter fun p => !settledOk p.2).length →
        ∃ es, (RateService.getRates providers).errors = some es ∧
          es.length = (providers.filter fun p => !settledOk p.2).length) ∧
    ((RateService.getRates providers).quotes.map (fun cq => cq.carrier)
        = (providers.filter fun p => settledOk p.2).map Prod.fst) ∧
    (∀ es, (RateService.getRates providers).errors = some es →
        es.map (fun ce => ce.carrier)
          = (providers.filter fun p => !settledOk p.2).map Prod.fst) ∧
    (∀ p ∈ providers, ∀ q, p.2 = .ok q →
        ({ carrier := p.1, quote := q } : CarrierQuote) ∈ (RateService.getRates providers).quotes) ∧
    ((RateService.getRates providers).invocations = providers.length) ∧
    (providers = [] →
        RateService.getRates providers = { quotes := [], errors := none, invocations := 0 }) := by
  cases hps : providers with
  | nil =>
    refine ⟨rfl, fun _ => rfl, by simp [RateService.getRates], by simp [RateService.getRates, quotesOf],
      ?_, by simp, rfl, fun _ => rfl⟩
    intro es hes
    simp [RateService.getRates] at hes
  | cons p l =>
    have hne : (p :: l : ProviderEntries) ≠ [] := by simp
    have hrw := getRates_eq_of_ne_nil (p :: l) hne
    have hlen := quotesOf_errorsOf_length (p :: l)
    have herr := errorsOf_length (p :: l)
    by_cases hpos : 0 < (errorsOf (p :: l)).length
    · rw [if_pos hpos] at hrw
      refine ⟨?_, ?_, ?_, ?_, ?_, ?_, ?_, by simp⟩
      · rw [hrw]; simp only []; omega
      · intro h0; omega
      · intro _; exact ⟨errorsOf (p :: l), by rw [hrw], herr⟩
      · rw [hrw]; exact quotesOf_carriers (p :: l)
      · intro es hes
        rw [hrw] at hes
        simp only [Option.some.injEq] at hes
        rw [← hes]
        exact errorsOf_carriers (p :: l)
      · intro q hq r hr
        rw [hrw]
        exact quotesOf_mem (p :: l) q r hq hr
      · rw [hrw]
    · rw [if_neg hpos] at hrw
      refine ⟨?_, ?_, ?_, ?_, ?_, ?_, ?_, by simp⟩
      · rw [hrw]; simp only []; omega
      · intro _; rw [hrw]
      · intro hgt; omega
      · rw [hrw]; exact quotesOf_carriers (p :: l)
      · intro es hes
        rw [hrw] at hes
        simp at hes
      · intro q hq r hr
        rw [hrw]
        exact quotesOf_mem (p :: l) q r hq hr
      · rw [hrw]

/-- Witness for C2 on a two-adapter registry with one failure: one quote,
one error, names in registration order, one invocation per adapter. -/
theorem rateService_getRates_partition_witness :
    (RateService.getRates providersEx).quotes.length
      = providersEx.length - (providersEx.filter fun p => !settledOk p.2).length ∧
    (∃ es, (RateService.getRates providersEx).errors = some es ∧
      es.length = (providersEx.filter fun p => !settledOk p.2).length) ∧
    (RateService.getRates providersEx).invocations = providersEx.length := by
  have h := rateService_getRates_partition providersEx
  exact ⟨h.1, h.2.2.1 (by decide), h.2.2.2.2.2.2.1⟩

/-- **C7.** `getRatesFromProvider`: an unregistered name fails with the
`Unknown rate provider` error and invokes no adapter; a registered name
invokes exactly that adapter and propagates its settled outcome — success or
failure — unchanged. -/
theorem rateService_getRatesFromProvider_lookup (providers : ProviderEntries) (name : String) :
    (providers.lookup name = none →
      RateService.getRatesFromProvider providers name
        = (.error { message := "Unknown rate provider: " ++ name }, 0)) ∧
    (∀ outcome, providers.lookup name = some outcome →
      RateService.getRatesFromProvider providers name = (outcome, 1)) := by
  constructor
  · intro h
    simp [RateService.getRatesFromProvider, h]
  · intro outcome h
    simp [RateService.getRatesFromProvider, h]

/-- Witness for C7: unknown name rejected with zero invocations; registered
names ("ups" succeeding, "fedex" failing) propagated directly. -/
theorem rateService_getRatesFromProvider_lookup_witness :
    RateService.getRatesFromProvider providersEx "dhl"
      = (.error { message := "Unknown rate provider: " ++ "dhl" }, 0) ∧
    RateService.getRatesFromProvider providersEx "ups" = (.ok quoteEx, 1) ∧
    RateService.getRatesFromProvider providersEx "fedex"
      = (.error { message := "boom" }, 1) := by
  refine ⟨(rateService_getRatesFromProvider_lookup providersEx "dhl").1 (by decide),
    (rateService_getRatesFromProvider_lookup providersEx "ups").2 (.ok quoteEx) ?_,
    (rateService_getRatesFromProvider_lookup providersEx "fedex").2
      (.error { message := "boom" }) ?_⟩ <;> rfl

/-! ## Theorems: UPS response normalization -/

/-- **C9.** `parseAmount` is total and never throws: a missing charges
object, a missing `MonetaryValue`, and a string `Number.parseFloat` cannot
read all map to `0`; a non-empty numeric string maps to its parsed value. -/
theorem parseAmount_total_safe :
    parseAmount none = 0 ∧
    (∀ ch : UpsCharges, ch.MonetaryValue = none → parseAmount (some ch) = 0) ∧
    (∀ ch mv, ch.MonetaryValue = some mv → jsParseFloat mv = none →
      parseAmount (some ch) = 0) ∧
    (∀ ch mv q, ch.MonetaryValue = some mv → mv ≠ "" → jsParseFloat mv = some q →
      parseAmount (some ch) = q) := by
  refine ⟨rfl, ?_, ?_, ?_⟩
  · intro ch h
    simp [parseAmount, h]
  · intro ch mv h hpf
    by_cases hemp : mv = ""
    · simp [parseAmount, h, hemp]
    · simp [parseAmount, h, hemp, hpf]
  · intro ch mv q h hemp hpf
    simp [parseAmount, h, hemp, hpf]

/-- Witness for C9 at concrete fields: absent value, unparsable string, and
the plain decimal `"25.50"`. -/
theorem parseAmount_total_safe_witness :
    parseAmount none = 0 ∧
    parseAmount (some { CurrencyCode := some "USD" }) = 0 ∧
    parseAmount (some { MonetaryValue := some "invalid" }) = 0 ∧
    parseAmount (some { MonetaryValue := some "25.50" }) = 2550 / 100 := by
  have hinv : jsParseFloat "invalid" = none := by
    have : jsParseFloatParts "invalid" = none := by decide
    simp [jsParseFloat, this]
  have h2550 : jsParseFloat "25.50" = some (2550 / 100) := by
    have : jsParseFloatParts "25.50" = some (false, 25, 50, 2) := by decide
    rw [jsParseFloat, this]
    norm_num
  exact ⟨parseAmount_total_safe.1,
    parseAmount_total_safe.2.1 { CurrencyCode := some "USD" } rfl,
    parseAmount_total_safe.2.2.1 { MonetaryValue := some "invalid" } "invalid" rfl hinv,
    parseAmount_total_safe.2.2.2 { MonetaryValue := some "25.50" } "25.50" (2550 / 100) rfl
      (by decide) h2550⟩

/-- **C8.** A response with no rated-shipment entry — missing `RateResponse`,
missing `RatedShipment`, or an empty rated-shipment array, which are exactly
the cases where `getRatedShipments` is empty — maps to the sentinel quote
`{serviceCode: "ups", serviceName: "UPS", totalPrice: 0, currency: "USD"}`
with no breakdown, and never fails. -/
theorem mapUps_sentinel (res : UpsRateResponse) :
    (getRatedShipments res = [] ↔
      res.RateResponse = none ∨
      ∃ rr, res.RateResponse = some rr ∧
        (rr.RatedShipment = none ∨ rr.RatedShipment = some (.array []))) ∧
    (getRatedShipments res = [] →
      mapUpsRateResponseToQuote res =
        { serviceCode := "ups", serviceName := "UPS", totalPrice := 0, currency := "USD"
          breakdown := none }) := by
  constructor
  · obtain ⟨rr⟩ := res
    cases rr with
    | none => simp [getRatedShipments]
    | some inner =>
      cases hrs : inner.RatedShipment with
      | none => simp [getRatedShipments, hrs]
      | some field =>
        cases field with
        | single s => simp [getRatedShipments, hrs]
        | array ss => cases ss <;> simp [getRatedShipments, hrs]
  · intro h
    simp [mapUpsRateResponseToQuote, h, upsSentinelQuote]

/-- Witness for C8 at the response `{}` (no `RateResponse` at all). -/
theorem mapUps_sentinel_witness :
    mapUpsRateResponseToQuote { RateResponse := none } =
      { serviceCode := "ups", serviceName := "UPS", totalPrice := 0, currency := "USD"
        breakdown := none } :=
  (mapUps_sentinel { RateResponse := none }).2 rfl

/-- **C4.** When the first rated shipment carries both a standard and a
negotiated total: `totalPrice` is the negotiated total; the standard total
is preserved as `breakdown.basePrice`; the fuel line item found by code
`"FS"` or case-insensitive `"fuel"` substring becomes
`breakdown.fuelSurcharge`; the negotiated total is also kept under
`breakdown.other`.  With several rated services the first in carrier order
is used, irrespective of the others (no sorting by price).  On the fixture
(negotiated 10.88, standard 11.63, fuel 1.09, plus a cheaper second
service) the quote is `{totalPrice: 10.88, breakdown: {basePrice: 11.63,
fuelSurcharge: 1.09, other: 10.88}}`. -/
theorem mapUps_negotiated_precedence :
    (∀ (res : UpsRateResponse) (first : UpsRatedShipment) (rest : List UpsRatedShipment)
        (nrc : UpsNegotiatedRateCharges) (nt st : UpsCharges),
      getRatedShipments res = first :: rest →
      first.NegotiatedRateCharges = some nrc →
      nrc.TotalCharge = some nt →
      first.TotalCharges = some st →
      (mapUpsRateResponseToQuote res).totalPrice = parseAmount (some nt) ∧
      ∃ b, (mapUpsRateResponseToQuote res).breakdown = some b ∧
        b.basePrice = parseAmount (some st) ∧
        b.other = some (parseAmount (some nt)) ∧
        b.fuelSurcharge = ((nrc.ItemizedCharges.getD []).find? isFuelCharge).map
          (fun fi => parseAmount (some { MonetaryValue := fi.MonetaryValue }))) ∧
    (∀ (s : UpsRatedShipment) (rest : List UpsRatedShipment),
      mapUpsRateResponseToQuote
          { RateResponse := some { RatedShipment := some (.array (s :: rest)) } }
        = mapUpsRateResponseToQuote
          { RateResponse := some { RatedShipment := some (.single s) } }) ∧
    (mapUpsRateResponseToQuote upsRateResponseEx).totalPrice = 1088 / 100 ∧
    (mapUpsRateResponseToQuote upsRateResponseEx).breakdown =
      some { basePrice := 1163 / 100, fuelSurcharge := some (109 / 100)
             other := some (1088 / 100) } := by
  have h1088 : jsParseFloatParts "10.88" = some (false, 10, 88, 2) := by decide
  have h1163 : jsParseFloatParts "11.63" = some (false, 11, 63, 2) := by decide
  have h109 : jsParseFloatParts "1.09" = some (false, 1, 9, 2) := by decide
  have hne88 : ("10.88" : String) ≠ "" := by decide
  have hne63 : ("11.63" : String) ≠ "" := by decide
  have hne09 : ("1.09" : String) ≠ "" := by decide
  have hfind : [upsFuelItemEx].find? isFuelCharge = some upsFuelItemEx := by decide
  refine ⟨?_, ?_, ?_, ?_⟩
  · intro res first rest nrc nt st hships hnrc hnt hst
    simp only [mapUpsRateResponseToQuote, hships, hnrc, hnt, hst]
    simp [Option.bind, hnt]
  · intro s rest
    rfl
  · norm_num [mapUpsRateResponseToQuote, upsRateResponseEx, upsRatedShipmentEx,
      upsNegotiatedEx, upsNegTotalEx, getRatedShipments, parseAmount, jsParseFloat,
      h1088, hne88]
  · have hmv : upsFuelItemEx.MonetaryValue = some "1.09" := rfl
    norm_num [mapUpsRateResponseToQuote, upsRateResponseEx, upsRatedShipmentEx,
      upsNegotiatedEx, upsNegTotalEx, upsStdTotalEx, getRatedShipments,
      parseAmount, jsParseFloat, h1088, h1163, h109, hne88, hne63, hne09, hfind, hmv]

/-- Witness for C4's general part at the fixture: negotiated total and
standard total as the code computes them on `upsRateResponseEx`. -/
theorem mapUps_negotiated_precedence_witness :
    (mapUpsRateResponseToQuote upsRateResponseEx).totalPrice = parseAmount (some upsNegTotalEx) ∧
    ∃ b, (mapUpsRateResponseToQuote upsRateResponseEx).breakdown = some b ∧
      b.basePrice = parseAmount (some upsStdTotalEx) ∧
      b.other = some (parseAmount (some upsNegTotalEx)) ∧
      b.fuelSurcharge = ((upsNegotiatedEx.ItemizedCharges.getD []).find? isFuelCharge).map
        (fun fi => parseAmount (some { MonetaryValue := fi.MonetaryValue })) := by
  have h := mapUps_negotiated_precedence.1 upsRateResponseEx upsRatedShipmentEx
    [upsRatedShipmentEx2] upsNegotiatedEx upsNegTotalEx upsStdTotalEx
    (by decide) (by decide) (by decide) (by decide)
  exact ⟨h.1, h.2⟩

/-! ## Theorems: transport gateway and token acquisition -/

/-- **C5.** `FetchClient.request`: a non-2xx response fails with a
`FetchError` (the spec's `TransportError`) carrying the status, status text
and raw body — by type, never a generic exception; a 2xx response with an
empty body yields the explicit no-content value; a 2xx body `JSON.parse`
rejects fails with the `Invalid JSON response` `FetchError`, not a raw parse
exception; a parseable 2xx body is returned decoded. -/
theorem fetchClient_request_cases {J : Type} (parseJson : String → Option J)
    (res : HttpResponse) :
    (res.ok = false →
      FetchClient.request parseJson res =
        .error { message := "Request failed: " ++ toString res.status ++ " " ++ res.statusText
                 status := res.status, statusText := res.statusText, body := res.text }) ∧
    (res.ok = true → res.text = "" → FetchClient.request parseJson res = .ok none) ∧
    (res.ok = true → res.text ≠ "" → parseJson res.text = none →
      FetchClient.request parseJson res =
        .error { message := "Invalid JSON response", status := res.status
                 statusText := res.statusText, body := res.text }) ∧
    (res.ok = true → res.text ≠ "" → ∀ v, parseJson res.text = some v →
      FetchClient.request parseJson res = .ok (some v)) := by
  refine ⟨?_, ?_, ?_, ?_⟩
  · intro h
    simp [FetchClient.request, h]
  · intro h ht
    simp [FetchClient.request, h, ht]
  · intro h ht hp
    simp [FetchClient.request, h, ht, hp]
  · intro h ht v hp
    simp [FetchClient.request, h, ht, hp]

/-- Witness for C5: a 500 failure, an empty 204 body, an unparsable 200
body, and a parseable 200 body, through the toy parse function. -/
theorem fetchClient_request_cases_witness :
    FetchClient.request parseJsonEx
        { ok := false, status := 500, statusText := "Server Error", text := "oops" } =
      .error { message := "Request failed: " ++ toString 500 ++ " " ++ "Server Error"
               status := 500, statusText := "Server Error", body := "oops" } ∧
    FetchClient.request parseJsonEx
        { ok := true, status := 204, statusText := "No Content", text := "" } = .ok none ∧
    FetchClient.request parseJsonEx
        { ok := true, status := 200, statusText := "OK", text := "not json" } =
      .error { message := "Invalid JSON response", status := 200
               statusText := "OK", body := "not json" } ∧
    FetchClient.request parseJsonEx
        { ok := true, status := 200, statusText := "OK", text := "1" } = .ok (some 1) := by
  refine ⟨(fetchClient_request_cases parseJsonEx _).1 rfl,
    (fetchClient_request_cases parseJsonEx _).2.1 rfl rfl,
    (fetchClient_request_cases parseJsonEx _).2.2.1 rfl (by decide) ?_,
    (fetchClient_request_cases parseJsonEx _).2.2.2 rfl (by decide) 1 ?_⟩ <;> decide

/-- **C6.** `fetchUpsAccessToken`: a non-2xx token-endpoint response fails
with the acquisition error carrying HTTP status and raw body (the spec's
`TokenAcquisitionError`); a 2xx JSON body lacking `access_token` — whether a
field-less object or a non-object — fails with the missing-access-token
error (the spec's `MalformedTokenResponseError`); a 2xx JSON object with
`access_token` succeeds, returning that token and its `expires_in` seconds
(defaulted to 0 via `Number(o.expires_in) || 0`). -/
theorem fetchUpsAccessToken_cases (res : TokenEndpointResponse) :
    (res.ok = false →
      fetchUpsAccessToken res = .error (.tokenAcq res.status res.statusText res.text)) ∧
    (res.ok = true → ∀ fields, res.json = some (.obj fields) →
      fields.lookup "access_token" = none →
      fetchUpsAccessToken res = .error .malformedToken) ∧
    (res.ok = true → ∀ body, res.json = some body → (∀ fields, body ≠ .obj fields) →
      fetchUpsAccessToken res = .error .malformedToken) ∧
    (res.ok = true → ∀ fields v, res.json = some (.obj fields) →
      fields.lookup "access_token" = some v →
      ∃ r, fetchUpsAccessToken res = .ok r ∧ r.access_token = jsToString v ∧
        r.expires_in = ((fields.lookup "expires_in").bind jsToNumber).getD 0) := by
  refine ⟨?_, ?_, ?_, ?_⟩
  · intro h
    simp [fetchUpsAccessToken, h]
  · intro h fields hj hlook
    simp [fetchUpsAccessToken, h, hj, parseTokenResponse, hlook]
  · intro h body hj hne
    cases body with
    | obj fields => exact absurd rfl (hne fields)
    | str s => simp [fetchUpsAccessToken, h, hj, parseTokenResponse]
    | num q => simp [fetchUpsAccessToken, h, hj, parseTokenResponse]
    | jbool b => simp [fetchUpsAccessToken, h, hj, parseTokenResponse]
    | null => simp [fetchUpsAccessToken, h, hj, parseTokenResponse]
    | arr xs => simp [fetchUpsAccessToken, h, hj, parseTokenResponse]
  · intro h fields v hj hlook
    refine ⟨{ access_token := jsToString v
              token_type := match fields.lookup "token_type" with
                | some (.str s) => s
                | _ => "Bearer"
              expires_in := match (fields.lookup "expires_in").bind jsToNumber with
                | some q => if q = 0 then 0 else q
                | none => 0
              issued_at := match fields.lookup "issued_at" with
                | some (.str s) => s
                | _ => ""
              status := match fields.lookup "status" with
                | some (.str s) => s
                | _ => "" }, ?_, rfl, ?_⟩
    · simp [fetchUpsAccessToken, h, hj, parseTokenResponse, hlook]
    · match hq : (fields.lookup "expires_in").bind jsToNumber with
      | none => simp [hq]
      | some q =>
        by_cases h0 : q = 0
        · simp [hq, h0]
        · simp [hq, h0]

/-- Witness for C6: the 401 failure, the token-less 2xx object, a non-object
2xx body, and the healthy 2xx response. -/
theorem fetchUpsAccessToken_cases_witness :
    fetchUpsAccessToken tokenRes401 = .error (.tokenAcq 401 "Unauthorized" "denied") ∧
    fetchUpsAccessToken tokenResNoTok = .error .malformedToken ∧
    fetchUpsAccessToken { tokenResNoTok with json := some (.str "hi") } =
      .error .malformedToken ∧
    (∃ r, fetchUpsAccessToken tokenResGood = .ok r ∧
      r.access_token = jsToString (.str "tok123") ∧
      r.expires_in = ((tokenFieldsGood.lookup "expires_in").bind jsToNumber).getD 0) := by
  refine ⟨(fetchUpsAccessToken_cases tokenRes401).1 rfl,
    (fetchUpsAccessToken_cases tokenResNoTok).2.1 rfl [] rfl rfl,
    (fetchUpsAccessToken_cases { tokenResNoTok with json := some (.str "hi") }).2.2.1 rfl
      (.str "hi") rfl (fun fields hx => JsonValue.noConfusion hx),
    (fetchUpsAccessToken_cases tokenResGood).2.2.2 rfl tokenFieldsGood (.str "tok123")
      rfl rfl⟩

end CarrierIntegration
